import Mathlib

/-
Shallow embedding of the HtmlToPDF service (src/server.js).

The external headless-browser engine (puppeteer) is modelled as an oracle
`EngineEnv` that decides the outcome of every engine-facing operation:
process launch, page (rendering surface) acquisition, navigation,
content-set, PDF rasterization, and browser close.  Engine handles are
numbered by a launch counter.  The mutable module state of server.js, the
global `browser` variable, is modelled by `SrvState`; in addition the model
tracks `live`, the set of engine processes that have been launched and not
successfully closed, so that resource-leak properties can be stated.
Every operation returns, besides its result and the updated state, the
ordered list of engine-facing events it performed.
-/

namespace HtmlToPdf

/-- Options passed to page.pdf in generatePDF (server.js lines 111-120). -/
structure PdfOptions where
  format : String
  printBackground : Bool
  marginTop : String
  marginBottom : String
  marginLeft : String
  marginRight : String
deriving DecidableEq, Repr

/-- Engine-facing operations, recorded in order of invocation. -/
inductive Event where
  | launchAttempt (id : Nat) (ok : Bool)
  | newPage (h : Nat) (ok : Bool)
  | goto (h : Nat) (url : String)
  | setContent (h : Nat) (html : String)
  | pdfCall (h : Nat) (opts : PdfOptions)
  | pageClose (h : Nat)
  | browserClose (h : Nat)
  | restartInvoked
deriving DecidableEq, Repr

/-- Oracle for the external collaborators: puppeteer (launch, newPage,
goto, setContent, pdf, close) and the WHATWG URL parser used by
the route handler.  `none` / `Except.ok` means the operation succeeds;
`some msg` / `Except.error msg` means it throws with message `msg`. -/
structure EngineEnv where
  launchOk : Nat → Bool
  newPageRes : Nat → Option String
  gotoRes : Nat → String → Option String
  setContentRes : Nat → String → Option String
  pdfRes : Nat → String → Except String (List Nat)
  closeRes : Nat → Option String
  urlValid : String → Bool

/-- Module state of server.js: the global `browser` variable (the id of
the handle it references, if any), the next launch id, and the set of
engine processes launched and not yet successfully closed. -/
structure SrvState where
  browser : Option Nat
  nextId : Nat
  live : List Nat
deriving DecidableEq, Repr

/-- State before startServer runs: no browser, no launches, no live process. -/
def initialState : SrvState := ⟨none, 0, []⟩

/-- initBrowser (server.js lines 33-48): try to launch; on success assign
the global `browser`; on failure only log, leaving `browser` unchanged. -/
def initBrowser (env : EngineEnv) (s : SrvState) : SrvState × List Event :=
  let i := s.nextId
  if env.launchOk i then
    (⟨some i, i + 1, i :: s.live⟩, [Event.launchAttempt i true])
  else
    ({ s with nextId := i + 1 }, [Event.launchAttempt i false])

/-- State right after startServer has run initBrowser once. -/
def startState (env : EngineEnv) : SrvState := (initBrowser env initialState).1

/-- restartBrowser (server.js lines 51-62): inside a try/catch, if
`browser` is set await browser.close(), then await initBrowser().
When close() throws, the catch only logs: initBrowser is NOT reached and
the global `browser` still references the old handle. -/
def restartBrowser (env : EngineEnv) (s : SrvState) : SrvState × List Event :=
  match s.browser with
  | none =>
      let r := initBrowser env s
      (r.1, Event.restartInvoked :: r.2)
  | some h =>
      match env.closeRes h with
      | some _ => (s, [Event.restartInvoked, Event.browserClose h])
      | none =>
          let r := initBrowser env { s with live := s.live.erase h }
          (r.1, Event.restartInvoked :: Event.browserClose h :: r.2)

/-- The process.on exit handler (server.js lines 65-69): if `browser` is
set, await browser.close().  The variable is never cleared. -/
def onExit (env : EngineEnv) (s : SrvState) : SrvState × List Event :=
  match s.browser with
  | none => (s, [])
  | some h =>
      match env.closeRes h with
      | some _ => (s, [Event.browserClose h])
      | none => ({ s with live := s.live.erase h }, [Event.browserClose h])

/-- The process.on SIGINT handler (server.js lines 71-76): if `browser` is
set, await browser.close(), then process.exit(0).  process.exit fires the
exit event, so the exit handler runs next, and since `browser` was never
cleared it calls close() a second time.  When close() rejects, the async
handler aborts before reaching process.exit. -/
def onSigint (env : EngineEnv) (s : SrvState) : SrvState × List Event :=
  match s.browser with
  | none =>
      let r := onExit env s
      (r.1, r.2)
  | some h =>
      match env.closeRes h with
      | some _ => (s, [Event.browserClose h])
      | none =>
          let r := onExit env { s with live := s.live.erase h }
          (r.1, Event.browserClose h :: r.2)

/-- The exact options the source passes to page.pdf (server.js 111-120). -/
def pdfOptionsUsed : PdfOptions :=
  { format := "A4", printBackground := true,
    marginTop := "1cm", marginBottom := "1cm",
    marginLeft := "1cm", marginRight := "1cm" }

/-- generatePDF (server.js lines 79-144): throw if `browser` is unset;
otherwise newPage, then goto (url) or setContent (html), then page.pdf
with pdfOptionsUsed, with page.close() in a finally block so the page is
closed on the success path and on both failure paths. -/
def generatePDF (env : EngineEnv) (s : SrvState) (source : String) (isUrl : Bool) :
    Except String (List Nat) × List Event :=
  match s.browser with
  | none => (Except.error "Browser not initialized", [])
  | some h =>
    match env.newPageRes h with
    | some msg => (Except.error msg, [Event.newPage h false])
    | none =>
      let loadEv : Event := if isUrl then Event.goto h source else Event.setContent h source
      let loadRes : Option String :=
        if isUrl then env.gotoRes h source else env.setContentRes h source
      match loadRes with
      | some msg =>
          (Except.error msg, [Event.newPage h true, loadEv, Event.pageClose h])
      | none =>
        match env.pdfRes h source with
        | Except.error msg =>
            (Except.error msg,
             [Event.newPage h true, loadEv, Event.pdfCall h pdfOptionsUsed, Event.pageClose h])
        | Except.ok bytes =>
            (Except.ok bytes,
             [Event.newPage h true, loadEv, Event.pdfCall h pdfOptionsUsed, Event.pageClose h])

/-- A request body, as destructured by the route handler: each field is
absent or a string. -/
structure Req where
  url : Option String
  html : Option String
deriving DecidableEq, Repr

/-- JavaScript truthiness for an optional string field: undefined and the
empty string are falsy, every other string is truthy. -/
def truthy : Option String → Bool
  | none => false
  | some s => s != ""

/-- Response body: a PDF payload or a JSON error object. -/
inductive RespBody where
  | pdfBytes (bytes : List Nat)
  | jsonError (error : String) (details : Option String)
deriving DecidableEq, Repr

/-- HTTP response: status code and body. -/
structure Resp where
  status : Nat
  body : RespBody
deriving DecidableEq, Repr

/-- Tail of the route handler (server.js lines 187-227): run generatePDF;
on success send the bytes with status 200; on any thrown error, first call
restartBrowser (its own errors are caught and only logged) and then send
a 500 whose details field carries the original error message. -/
def finishGenerate (env : EngineEnv) (s : SrvState) (source : String) (isUrl : Bool) :
    Resp × SrvState × List Event :=
  match generatePDF env s source isUrl with
  | (Except.ok bytes, evs) => (⟨200, RespBody.pdfBytes bytes⟩, s, evs)
  | (Except.error msg, evs) =>
      let r := restartBrowser env s
      (⟨500, RespBody.jsonError "Failed to generate PDF" (some msg)⟩, r.1, evs ++ r.2)

/-- The POST /api/generate-pdf handler (server.js lines 147-228):
validate with truthiness checks, validate the url with the URL parser,
then delegate to generatePDF via finishGenerate. -/
def handlePost (env : EngineEnv) (s : SrvState) (req : Req) :
    Resp × SrvState × List Event :=
  if !(truthy req.url) && !(truthy req.html) then
    (⟨400, RespBody.jsonError "Either url or html parameter is required" none⟩, s, [])
  else if truthy req.url && truthy req.html then
    (⟨400, RespBody.jsonError "Provide either url or html, not both" none⟩, s, [])
  else if truthy req.url then
    if !(env.urlValid (req.url.getD "")) then
      (⟨400, RespBody.jsonError "Invalid URL format" none⟩, s, [])
    else
      finishGenerate env s (req.url.getD "") true
  else
    finishGenerate env s (req.html.getD "") false

/-- True on page-open events: used to state that no rendering surface is
ever acquired. -/
def isNewPage : Event → Bool
  | Event.newPage _ _ => true
  | _ => false

/-- True on page-close events. -/
def isPageClose : Event → Bool
  | Event.pageClose _ => true
  | _ => false

/-- Number of pageClose events in a trace. -/
def countPageClose (evs : List Event) : Nat :=
  (evs.filter isPageClose).length

/-- An oracle on which every engine operation succeeds and every url is
well formed; the rendered bytes start with the PDF signature. -/
def envAllOk : EngineEnv :=
  { launchOk := fun _ => true,
    newPageRes := fun _ => none,
    gotoRes := fun _ _ => none,
    setContentRes := fun _ _ => none,
    pdfRes := fun _ _ => Except.ok [37, 80, 68, 70],
    closeRes := fun _ => none,
    urlValid := fun _ => true }

/-- A state holding one ready engine handle, handle 0. -/
def sReady : SrvState := ⟨some 0, 1, [0]⟩

/-- Oracle on which page.pdf always throws and everything else succeeds. -/
def envRenderFail : EngineEnv :=
  { envAllOk with pdfRes := fun _ _ => Except.error "render boom" }

/-- Oracle on which browser.close always throws and everything else succeeds. -/
def envCloseFail : EngineEnv :=
  { envAllOk with closeRes := fun _ => some "close boom" }

/-- Oracle on which puppeteer.launch always fails and everything else succeeds. -/
def envLaunchFail : EngineEnv :=
  { envAllOk with launchOk := fun _ => false }

/-
Sequential execution of the lifecycle operations that the program performs
after startup: a browser restart (from a failing request handler), the two
process-termination handlers, and a full request.  In the source,
initBrowser is reached only from startServer (once) and from
restartBrowser, which these operations cover.
-/

/-- One top-level operation the running server can perform. -/
inductive SeqOp where
  | opRestart
  | opExit
  | opSigint
  | opReq (r : Req)

/-- Execute one operation, keeping only the state. -/
def runOp (env : EngineEnv) (s : SrvState) : SeqOp → SrvState
  | SeqOp.opRestart => (restartBrowser env s).1
  | SeqOp.opExit => (onExit env s).1
  | SeqOp.opSigint => (onSigint env s).1
  | SeqOp.opReq r => (handlePost env s r).2.1

/-- Execute a sequence of operations from a state. -/
def runSeq (env : EngineEnv) : List SeqOp → SrvState → SrvState
  | [], s => s
  | op :: ops, s => runSeq env ops (runOp env s op)

/-- Invariant carried by sequential execution: either no engine process is
live, or exactly one is and the global `browser` references it. -/
def seqInv (s : SrvState) : Prop :=
  s.live = [] ∨ ∃ h, s.live = [h] ∧ s.browser = some h

/-
Interleaved execution of two concurrent initBrowser calls, as happens when
two failing requests both reach restartBrowser.  The body of initBrowser,
`browser = await puppeteer.launch(...)`, has one suspension point: the
await.  Each task is therefore two atomic steps: step 0 performs the
launch (the engine process now exists and is live) and step 1, the
continuation after the await, assigns the resulting handle to the global
`browser`.  Launches are assumed to succeed.  A schedule is a list of
booleans choosing which task performs its next step.
-/

/-- Joint state of the two racing initBrowser tasks: the shared module
state plus each task program counter and the handle its launch produced. -/
structure RaceState where
  browser : Option Nat
  nextId : Nat
  live : List Nat
  pcA : Nat
  pcB : Nat
  idA : Option Nat
  idB : Option Nat
deriving DecidableEq, Repr

/-- Run the next atomic step of task A (a call to initBrowser). -/
def raceStepA (st : RaceState) : RaceState :=
  if st.pcA = 0 then
    { st with idA := some st.nextId, live := st.nextId :: st.live,
              nextId := st.nextId + 1, pcA := 1 }
  else if st.pcA = 1 then
    { st with browser := st.idA, pcA := 2 }
  else st

/-- Run the next atomic step of task B (a second call to initBrowser). -/
def raceStepB (st : RaceState) : RaceState :=
  if st.pcB = 0 then
    { st with idB := some st.nextId, live := st.nextId :: st.live,
              nextId := st.nextId + 1, pcB := 1 }
  else if st.pcB = 1 then
    { st with browser := st.idB, pcB := 2 }
  else st

/-- Run a schedule: true picks task A, false picks task B. -/
def runRace : List Bool → RaceState → RaceState
  | [], st => st
  | b :: rest, st => runRace rest (if b then raceStepA st else raceStepB st)

/-- Both tasks at their first step, no browser yet. -/
def raceInit : RaceState := ⟨none, 0, [], 0, 0, none, none⟩

/-
Theorems.
-/

/-- Every restartBrowser trace records the restart invocation. -/
theorem restartInvoked_mem (env : EngineEnv) (s : SrvState) :
    Event.restartInvoked ∈ (restartBrowser env s).2 := by
  unfold restartBrowser
  split
  · simp
  · split <;> simp

/-- Claim C3: a request with neither field truthy, with both fields
truthy, or with a truthy url that the URL parser rejects, is answered
with status 400 and no engine operation is performed: the state is
unchanged and the event trace is empty. -/
theorem invalid_request_no_engine (env : EngineEnv) (s : SrvState) (req : Req)
    (hinv : (truthy req.url = false ∧ truthy req.html = false)
      ∨ (truthy req.url = true ∧ truthy req.html = true)
      ∨ (truthy req.url = true ∧ truthy req.html = false
          ∧ env.urlValid (req.url.getD "") = false)) :
    (handlePost env s req).1.status = 400
    ∧ (handlePost env s req).2.1 = s
    ∧ (handlePost env s req).2.2 = [] := by
  unfold handlePost
  rcases hinv with ⟨h1, h2⟩ | ⟨h1, h2⟩ | ⟨h1, h2, h3⟩ <;> simp [h1, h2, *]

/-- Witness for C3 at the concrete request with both fields absent. -/
theorem invalid_request_no_engine_witness :
    (handlePost envAllOk sReady ⟨none, none⟩).1.status = 400
    ∧ (handlePost envAllOk sReady ⟨none, none⟩).2.1 = sReady
    ∧ (handlePost envAllOk sReady ⟨none, none⟩).2.2 = [] :=
  invalid_request_no_engine envAllOk sReady ⟨none, none⟩ (Or.inl ⟨rfl, rfl⟩)

/-- Claim C10: a request whose html field is the empty string (url absent),
or whose url field is the empty string (html absent), is treated as having
no source at all, because the handler tests presence by truthiness; it is
answered 400 with the missing-parameter error and no engine operation. -/
theorem empty_string_field_treated_absent (env : EngineEnv) (s : SrvState) :
    handlePost env s ⟨none, some ""⟩
      = (⟨400, RespBody.jsonError "Either url or html parameter is required" none⟩, s, [])
    ∧ handlePost env s ⟨some "", none⟩
      = (⟨400, RespBody.jsonError "Either url or html parameter is required" none⟩, s, []) := by
  constructor <;> rfl

/-- Claim C1: whenever a request passes validation and generatePDF then
throws (engine unavailable, page open failure, or render failure), the
handler performs the browser restart before answering, its final state is
exactly the restartBrowser state, and the 500 response carries the
original error message in its details field, whatever the restart does
(the quantification over env covers every restart outcome, including a
failing close or a failing relaunch: those are only logged and never
change the response). -/
theorem failure_restarts_before_response (env : EngineEnv) (s : SrvState) (req : Req)
    (msg : String)
    (hfail : (truthy req.url = false ∧ truthy req.html = true
        ∧ (generatePDF env s (req.html.getD "") false).1 = Except.error msg)
      ∨ (truthy req.url = true ∧ truthy req.html = false
        ∧ env.urlValid (req.url.getD "") = true
        ∧ (generatePDF env s (req.url.getD "") true).1 = Except.error msg)) :
    (handlePost env s req).1
        = ⟨500, RespBody.jsonError "Failed to generate PDF" (some msg)⟩
    ∧ (handlePost env s req).2.1 = (restartBrowser env s).1
    ∧ Event.restartInvoked ∈ (handlePost env s req).2.2 := by
  rcases hfail with ⟨h1, h2, hg⟩ | ⟨h1, h2, h3, hg⟩
  · have hp : generatePDF env s (req.html.getD "") false
        = (Except.error msg, (generatePDF env s (req.html.getD "") false).2) := by
      rw [← hg]
    unfold handlePost finishGenerate
    rw [h1, h2, hp]
    simp [restartInvoked_mem env s]
  · have hp : generatePDF env s (req.url.getD "") true
        = (Except.error msg, (generatePDF env s (req.url.getD "") true).2) := by
      rw [← hg]
    unfold handlePost finishGenerate
    rw [h1, h2, h3, hp]
    simp [restartInvoked_mem env s]

/-- Witness for C1 at a concrete html request whose rasterization throws. -/
theorem failure_restarts_before_response_witness :
    (handlePost envRenderFail sReady ⟨none, some "<p>"⟩).1
        = ⟨500, RespBody.jsonError "Failed to generate PDF" (some "render boom")⟩
    ∧ (handlePost envRenderFail sReady ⟨none, some "<p>"⟩).2.1
        = (restartBrowser envRenderFail sReady).1
    ∧ Event.restartInvoked ∈ (handlePost envRenderFail sReady ⟨none, some "<p>"⟩).2.2 :=
  failure_restarts_before_response envRenderFail sReady ⟨none, some "<p>"⟩ "render boom"
    (Or.inl ⟨rfl, rfl, rfl⟩)

/-- Claim C2: whenever generatePDF successfully acquires a page
(`browser` is set and newPage succeeds), the trace contains exactly one
pageClose event and it is the last engine operation performed, so the page
is closed exactly once before generatePDF returns or propagates an error,
on the normal path, on the navigation/content-set failure path, and on the
rasterization failure path alike. -/
theorem page_closed_exactly_once (env : EngineEnv) (s : SrvState) (source : String)
    (isUrl : Bool) (h : Nat) (hb : s.browser = some h)
    (hnp : env.newPageRes h = none) :
    countPageClose (generatePDF env s source isUrl).2 = 1
    ∧ (generatePDF env s source isUrl).2.getLast? = some (Event.pageClose h) := by
  unfold generatePDF
  rw [hb]
  dsimp only
  rw [hnp]
  cases isUrl with
  | false =>
      cases hl : env.setContentRes h source with
      | some m => exact ⟨rfl, rfl⟩
      | none => cases hr : env.pdfRes h source <;> exact ⟨rfl, rfl⟩
  | true =>
      cases hl : env.gotoRes h source with
      | some m => exact ⟨rfl, rfl⟩
      | none => cases hr : env.pdfRes h source <;> exact ⟨rfl, rfl⟩

/-- Witness for C2 at a concrete html render against a ready engine. -/
theorem page_closed_exactly_once_witness :
    countPageClose (generatePDF envAllOk sReady "<p>" false).2 = 1
    ∧ (generatePDF envAllOk sReady "<p>" false).2.getLast? = some (Event.pageClose 0) :=
  page_closed_exactly_once envAllOk sReady "<p>" false 0 rfl rfl

/-- Claim C8: on every successful render, the rasterization request
carries exactly the options page size A4, print background enabled, and a
one centimeter margin on all four sides, and the byte sequence the engine
produces is the one generatePDF returns. -/
theorem render_uses_a4_options (env : EngineEnv) (s : SrvState) (source : String)
    (isUrl : Bool) (h : Nat) (bytes : List Nat) (hb : s.browser = some h)
    (hnp : env.newPageRes h = none)
    (hload : (if isUrl then env.gotoRes h source else env.setContentRes h source) = none)
    (hpdf : env.pdfRes h source = Except.ok bytes) :
    (generatePDF env s source isUrl).1 = Except.ok bytes
    ∧ Event.pdfCall h { format := "A4", printBackground := true,
                        marginTop := "1cm", marginBottom := "1cm",
                        marginLeft := "1cm", marginRight := "1cm" }
        ∈ (generatePDF env s source isUrl).2 := by
  unfold generatePDF
  rw [hb]
  dsimp only
  rw [hnp]
  cases isUrl with
  | false =>
      rw [if_neg (by simp)] at hload
      simp only [if_false, ite_false, Bool.false_eq_true]
      rw [hload, hpdf]
      exact ⟨rfl, by simp [pdfOptionsUsed]⟩
  | true =>
      rw [if_pos rfl] at hload
      simp only [if_true, ite_true]
      rw [hload, hpdf]
      exact ⟨rfl, by simp [pdfOptionsUsed]⟩

/-- Witness for C8 at a concrete html render against a ready engine. -/
theorem render_uses_a4_options_witness :
    (generatePDF envAllOk sReady "<p>" false).1 = Except.ok [37, 80, 68, 70]
    ∧ Event.pdfCall 0 { format := "A4", printBackground := true,
                        marginTop := "1cm", marginBottom := "1cm",
                        marginLeft := "1cm", marginRight := "1cm" }
        ∈ (generatePDF envAllOk sReady "<p>" false).2 :=
  render_uses_a4_options envAllOk sReady "<p>" false 0 [37, 80, 68, 70] rfl rfl rfl rfl

/-- Claim C5: when no handle exists and every launch attempt fails, a
valid html conversion request is answered with the server-fault response
whose details field is the engine-unavailable message (distinguishing it
from other failure kinds), the state keeps no partial handle (`browser`
stays absent), and the trace shows that no rendering surface is ever
opened: it consists only of the restart invocation and its failing
launch. -/
theorem launch_failure_engine_unavailable (env : EngineEnv) (s : SrvState) (req : Req)
    (hb : s.browser = none) (hlf : ∀ i, env.launchOk i = false)
    (hu : truthy req.url = false) (hh : truthy req.html = true) :
    (handlePost env s req).1
        = ⟨500, RespBody.jsonError "Failed to generate PDF" (some "Browser not initialized")⟩
    ∧ (handlePost env s req).2.1.browser = none
    ∧ (handlePost env s req).2.2 = [Event.restartInvoked, Event.launchAttempt s.nextId false]
    ∧ ∀ e ∈ (handlePost env s req).2.2, isNewPage e = false := by
  unfold handlePost finishGenerate generatePDF restartBrowser initBrowser
  rw [hu, hh, hb]
  simp [hlf, isNewPage]

/-- Witness for C5: launch fails deterministically, request carries html. -/
theorem launch_failure_engine_unavailable_witness :
    (handlePost envLaunchFail initialState ⟨none, some "<p>x</p>"⟩).1
        = ⟨500, RespBody.jsonError "Failed to generate PDF" (some "Browser not initialized")⟩
    ∧ (handlePost envLaunchFail initialState ⟨none, some "<p>x</p>"⟩).2.1.browser = none
    ∧ (handlePost envLaunchFail initialState ⟨none, some "<p>x</p>"⟩).2.2
        = [Event.restartInvoked, Event.launchAttempt 0 false]
    ∧ ∀ e ∈ (handlePost envLaunchFail initialState ⟨none, some "<p>x</p>"⟩).2.2,
        isNewPage e = false :=
  launch_failure_engine_unavailable envLaunchFail initialState ⟨none, some "<p>x</p>"⟩
    rfl (fun _ => rfl) rfl rfl

/-- Counterexample to C4 as stated: with an oracle on which every engine
operation, launch included, succeeds, a valid html request arriving while
no handle exists does not proceed with a lazily launched handle: it is
answered 500 with the engine-unavailable message, because generatePDF
throws instead of launching. -/
theorem lazy_launch_counterexample :
    (handlePost envAllOk initialState ⟨none, some "<p>x</p>"⟩).1
      = ⟨500, RespBody.jsonError "Failed to generate PDF" (some "Browser not initialized")⟩ := by
  decide

/-- Claim C4 as amended: a valid conversion request arriving while no
live engine handle exists fails with the engine-unavailable server fault;
only afterwards does the catch handler restart the engine, so that when
the launch succeeds a new handle exists for subsequent requests — the
failing request itself never proceeds. -/
theorem absent_engine_request_fails_then_relaunches (env : EngineEnv) (s : SrvState)
    (req : Req) (hb : s.browser = none) (hu : truthy req.url = false)
    (hh : truthy req.html = true) :
    (handlePost env s req).1
      = ⟨500, RespBody.jsonError "Failed to generate PDF" (some "Browser not initialized")⟩
    ∧ (env.launchOk s.nextId = true → (handlePost env s req).2.1.browser = some s.nextId) := by
  unfold handlePost finishGenerate generatePDF restartBrowser initBrowser
  rw [hu, hh, hb]
  constructor
  · simp
  · intro hl
    simp [hl]

/-- Witness for the amended C4 at a concrete request and all-success oracle. -/
theorem absent_engine_request_fails_then_relaunches_witness :
    (handlePost envAllOk initialState ⟨none, some "<p>x</p>"⟩).1
      = ⟨500, RespBody.jsonError "Failed to generate PDF" (some "Browser not initialized")⟩
    ∧ (envAllOk.launchOk 0 = true →
        (handlePost envAllOk initialState ⟨none, some "<p>x</p>"⟩).2.1.browser = some 0) :=
  absent_engine_request_fails_then_relaunches envAllOk initialState ⟨none, some "<p>x</p>"⟩
    rfl rfl rfl

/-- Counterexample to C6 as stated: when termination throws, the old
handle is NOT discarded (`browser` still references handle 0 and handle 0
is still live) and the launch step is NOT performed (no launchAttempt in
the trace): the catch in restartBrowser swallows the close error before
initBrowser is reached. -/
theorem restart_close_failure_counterexample :
    (restartBrowser envCloseFail sReady).1 = sReady
    ∧ (restartBrowser envCloseFail sReady).2
        = [Event.restartInvoked, Event.browserClose 0] := by
  decide

/-- Claim C6 as amended: on restart with a handle present, termination is
attempted and a termination failure is logged and never propagated; but
when termination throws, the launch step is skipped and the whole state,
the old handle included, is retained unchanged; only when termination
succeeds is the old handle removed from the live set and the launch step
performed, and a launch failure then leaves `browser` still referencing
the old, now closed, handle rather than recording the absent state. -/
theorem restart_termination_behaviour (env : EngineEnv) (s : SrvState) (h : Nat)
    (hb : s.browser = some h) :
    ((env.closeRes h).isSome = true →
        restartBrowser env s = (s, [Event.restartInvoked, Event.browserClose h]))
    ∧ (env.closeRes h = none →
        restartBrowser env s
          = ((initBrowser env { s with live := s.live.erase h }).1,
             Event.restartInvoked :: Event.browserClose h ::
               (initBrowser env { s with live := s.live.erase h }).2)) := by
  unfold restartBrowser
  rw [hb]
  dsimp only
  constructor
  · intro hc
    rcases Option.isSome_iff_exists.mp hc with ⟨m, hm⟩
    rw [hm]
  · intro hc
    rw [hc]

/-- Witness for the amended C6 with a close oracle that always throws. -/
theorem restart_termination_behaviour_witness :
    ((envCloseFail.closeRes 0).isSome = true →
        restartBrowser envCloseFail sReady
          = (sReady, [Event.restartInvoked, Event.browserClose 0]))
    ∧ (envCloseFail.closeRes 0 = none →
        restartBrowser envCloseFail sReady
          = ((initBrowser envCloseFail { sReady with live := sReady.live.erase 0 }).1,
             Event.restartInvoked :: Event.browserClose 0 ::
               (initBrowser envCloseFail { sReady with live := sReady.live.erase 0 }).2)) :=
  restart_termination_behaviour envCloseFail sReady 0 rfl

/-- Counterexample to C9 as stated: one SIGINT delivered while a handle
exists makes the process invoke browser close twice, not exactly once:
once in the SIGINT handler and once more in the exit handler fired by
process.exit, because the `browser` variable is never cleared. -/
theorem shutdown_twice_counterexample :
    (onSigint envAllOk sReady).2 = [Event.browserClose 0, Event.browserClose 0]
    ∧ (onSigint envAllOk sReady).2.length ≠ 1 := by
  decide

/-- Claim C9 as amended: the shutdown handler is a total no-op when no
handle was ever created; but because `browser` is never cleared after a
close, a SIGINT invokes close twice (SIGINT handler, then the exit
handler fired by process.exit), and a second run of the exit handler
after a first one again invokes close on the already closed handle
instead of being a no-op. -/
theorem shutdown_behaviour (env : EngineEnv) (s : SrvState) (h : Nat)
    (hb : s.browser = some h) (hc : env.closeRes h = none) :
    (∀ s0 : SrvState, s0.browser = none → onExit env s0 = (s0, []))
    ∧ (onSigint env s).2 = [Event.browserClose h, Event.browserClose h]
    ∧ (onExit env ((onExit env s).1)).2 = [Event.browserClose h] := by
  refine ⟨?_, ?_, ?_⟩
  · intro s0 h0
    unfold onExit
    rw [h0]
  · simp [onSigint, onExit, hb, hc]
  · simp [onExit, hb, hc]

/-- Witness for the amended C9 against a ready engine. -/
theorem shutdown_behaviour_witness :
    (∀ s0 : SrvState, s0.browser = none → onExit envAllOk s0 = (s0, []))
    ∧ (onSigint envAllOk sReady).2 = [Event.browserClose 0, Event.browserClose 0]
    ∧ (onExit envAllOk ((onExit envAllOk sReady).1)).2 = [Event.browserClose 0] :=
  shutdown_behaviour envAllOk sReady 0 rfl rfl

/-- initBrowser called with no live process keeps the invariant. -/
theorem initBrowser_inv (env : EngineEnv) (s : SrvState) (h0 : s.live = []) :
    seqInv (initBrowser env s).1 := by
  unfold initBrowser seqInv
  cases hl : env.launchOk s.nextId with
  | false => exact Or.inl (by simp [hl, h0])
  | true => exact Or.inr ⟨s.nextId, by simp [hl, h0], by simp [hl]⟩

/-- Under the invariant, a state whose browser references h has no live
process besides possibly h itself. -/
theorem erase_nil_of_seqInv (n : Nat) (l : List Nat) (h : Nat)
    (hs : seqInv ⟨some h, n, l⟩) : l.erase h = [] := by
  rcases hs with h1 | ⟨h2, h21, h22⟩
  · have hl : l = [] := h1
    rw [hl]
    rfl
  · have he : h = h2 := Option.some.inj h22
    have hl : l = [h2] := h21
    rw [hl, he]
    simp

/-- Under the invariant, a state with no browser has no live process. -/
theorem live_nil_of_seqInv_none (n : Nat) (l : List Nat)
    (hs : seqInv ⟨none, n, l⟩) : l = [] := by
  rcases hs with h1 | ⟨h2, h21, h22⟩
  · exact h1
  · exact Option.noConfusion h22

/-- restartBrowser keeps the invariant. -/
theorem restartBrowser_inv (env : EngineEnv) (s : SrvState) (hs : seqInv s) :
    seqInv (restartBrowser env s).1 := by
  obtain ⟨b, n, l⟩ := s
  unfold restartBrowser
  dsimp only
  cases b with
  | none => exact initBrowser_inv env ⟨none, n, l⟩ (live_nil_of_seqInv_none n l hs)
  | some h =>
      dsimp only
      cases hc : env.closeRes h with
      | some m => exact hs
      | none => exact initBrowser_inv env ⟨some h, n, l.erase h⟩ (erase_nil_of_seqInv n l h hs)

/-- The exit handler keeps the invariant. -/
theorem onExit_inv (env : EngineEnv) (s : SrvState) (hs : seqInv s) :
    seqInv (onExit env s).1 := by
  obtain ⟨b, n, l⟩ := s
  unfold onExit
  dsimp only
  cases b with
  | none => exact hs
  | some h =>
      dsimp only
      cases hc : env.closeRes h with
      | some m => exact hs
      | none => exact Or.inl (erase_nil_of_seqInv n l h hs)

/-- The SIGINT handler keeps the invariant. -/
theorem onSigint_inv (env : EngineEnv) (s : SrvState) (hs : seqInv s) :
    seqInv (onSigint env s).1 := by
  obtain ⟨b, n, l⟩ := s
  unfold onSigint
  dsimp only
  cases b with
  | none => exact onExit_inv env ⟨none, n, l⟩ hs
  | some h =>
      dsimp only
      cases hc : env.closeRes h with
      | some m => exact hs
      | none =>
          exact onExit_inv env ⟨some h, n, l.erase h⟩
            (Or.inl (erase_nil_of_seqInv n l h hs))

/-- The request handler either leaves the state alone or hands it to
restartBrowser. -/
theorem handlePost_state (env : EngineEnv) (s : SrvState) (r : Req) :
    (handlePost env s r).2.1 = s ∨ (handlePost env s r).2.1 = (restartBrowser env s).1 := by
  unfold handlePost finishGenerate
  split
  · exact Or.inl rfl
  · split
    · exact Or.inl rfl
    · split
      · split
        · exact Or.inl rfl
        · split
          · exact Or.inl rfl
          · exact Or.inr rfl
      · split
        · exact Or.inl rfl
        · exact Or.inr rfl

/-- Each top-level operation keeps the invariant. -/
theorem runOp_inv (env : EngineEnv) (s : SrvState) (op : SeqOp) (hs : seqInv s) :
    seqInv (runOp env s op) := by
  cases op with
  | opRestart => exact restartBrowser_inv env s hs
  | opExit => exact onExit_inv env s hs
  | opSigint => exact onSigint_inv env s hs
  | opReq r =>
      show seqInv (handlePost env s r).2.1
      rcases handlePost_state env s r with h | h
      · rw [h]
        exact hs
      · rw [h]
        exact restartBrowser_inv env s hs

/-- Sequences of top-level operations keep the invariant. -/
theorem runSeq_inv (env : EngineEnv) (ops : List SeqOp) :
    ∀ s : SrvState, seqInv s → seqInv (runSeq env ops s) := by
  induction ops with
  | nil =>
      intro s hs
      exact hs
  | cons op ops ih =>
      intro s hs
      exact ih _ (runOp_inv env s op hs)

/-- Claim C7 as amended: when the lifecycle operations run sequentially
(no interleaving at await points), every reachable state of the server
has at most one live engine process, and when one is live the global
`browser` references it; the single-handle invariant is NOT protected by
any mutual exclusion, and interleaved launches violate it (see the race
counterexample). -/
theorem seq_at_most_one_live (env : EngineEnv) (ops : List SeqOp) :
    (runSeq env ops (startState env)).live.length ≤ 1 := by
  have h1 : seqInv (startState env) := initBrowser_inv env initialState rfl
  have h2 := runSeq_inv env ops (startState env) h1
  rcases h2 with h | ⟨h, hl, _⟩
  · rw [h]
    simp
  · rw [hl]
    simp

/-- Counterexample to C7 as stated: interleaving two concurrent
initBrowser calls (both reached from restartBrowser by two failing
requests) with the schedule A-launch, B-launch, A-assign, B-assign runs
the launch transition twice and ends with two simultaneously live engine
processes; the global `browser` references handle 1 while handle 0 is
still live but unreferenced, silently overwritten. -/
theorem duplicate_launch_race_counterexample :
    (runRace [true, false, true, false] raceInit).live.length = 2
    ∧ (runRace [true, false, true, false] raceInit).pcA = 2
    ∧ (runRace [true, false, true, false] raceInit).pcB = 2
    ∧ (runRace [true, false, true, false] raceInit).browser = some 1
    ∧ 0 ∈ (runRace [true, false, true, false] raceInit).live := by
  decide

end HtmlToPdf
